import Mathlib

/-!
Verification of the `svcs` service-registry/container library
(`src/svcs/_core.py`) via a shallow embedding.

Python objects that matter to the engine are modelled by the inductive
type `Obj`; service types (the dictionary keys) are modelled by `Nat`;
Python's insertion-ordered `dict` is modelled by an association list with
replace-in-place insertion.  Side effects that the claims talk about
(factory invocations, cleanup execution and ordering, warnings, logged
cleanup failures) are collected in an explicit event trace (`Event`).
Exceptions are modelled with `Except` (`Exc` being the exception domain).
-/

namespace Svcs

/-- A context manager produced by a factory (either written with
`@contextmanager`/`@asynccontextmanager` around a generator factory, or
returned directly).  `id` identifies the resource (used in cleanup
events), `enterVal` is the object its `__enter__`/`__aenter__` yields,
`exitFails` says whether its cleanup raises on exit. -/
structure CMSpec where
  id : Nat
  enterVal : Nat
  exitFails : Bool
deriving DecidableEq, Repr

/-- What an awaitable resolves to once awaited.  `Container.aget` only
re-inspects an awaited result for the two context-manager shapes, so the
payload does not itself recurse through awaitables. -/
inductive Payload where
  | plain (v : Nat)
  | syncCM (cm : CMSpec)
  | asyncCM (cm : CMSpec)
deriving DecidableEq, Repr

/-- The domain of Python objects the engine inspects: plain values,
synchronous context managers (`AbstractContextManager`), asynchronous
context managers (`AbstractAsyncContextManager`), native coroutine
objects, and non-coroutine awaitables (objects with `__await__`, e.g. an
`asyncio.Future`).  The last two are distinct because the source
distinguishes them: `Container.get` tests `inspect.iscoroutine` while
`Container.aget` tests `inspect.isawaitable`. -/
inductive Obj where
  | val (v : Nat)
  | syncCM (cm : CMSpec)
  | asyncCM (cm : CMSpec)
  | coro (p : Payload)
  | awaitable (p : Payload)
deriving DecidableEq, Repr

/-- `inspect.iscoroutine`: true only for native coroutine objects. -/
def iscoroutine : Obj → Bool
  | .coro _ => true
  | _ => false

/-- `inspect.isawaitable`: true for coroutines and all other awaitables. -/
def isawaitable : Obj → Bool
  | .coro _ => true
  | .awaitable _ => true
  | _ => false

/-- `isinstance(x, AbstractContextManager)`. -/
def isSyncCMObj : Obj → Bool
  | .syncCM _ => true
  | _ => false

/-- `isinstance(x, AbstractAsyncContextManager)`. -/
def isAsyncCMObj : Obj → Bool
  | .asyncCM _ => true
  | _ => false

/-- `await x` on an awaitable: the object its payload realizes to. -/
def awaitObj : Payload → Obj
  | .plain v => .val v
  | .syncCM cm => .syncCM cm
  | .asyncCM cm => .asyncCM cm

/-- `x.__enter__()` / `await x.__aenter__()` on a context-manager object:
the value the manager yields.  (Only ever applied to CM objects.) -/
def enteredObj : Obj → Obj
  | .syncCM cm => .val cm.enterVal
  | .asyncCM cm => .val cm.enterVal
  | o => o

/-- A formal parameter of a factory, as `inspect.signature` reports it:
its name and whether its annotation resolves to the container type
(either as the class itself or the literal strings accepted by
`_takes_container`). -/
structure Param where
  name : String
  annotIsContainer : Bool
deriving DecidableEq, Repr

/-- The behaviour of calling a factory: it either returns an object or
raises a (user) exception. -/
inductive FactoryRes where
  | ok (o : Obj)
  | raises (e : Nat)
deriving DecidableEq, Repr

/-- A factory callable: what calling it does (`res`) and its signature
(`params`; `none` models `inspect.signature` itself failing, e.g. for an
opaque native callable).  A generator factory is modelled post-wrapping:
`Registry._register_factory` wraps generator functions in
`contextmanager`, so such a factory's `res` is directly an `Obj.syncCM`
(resp. `Obj.asyncCM` for async generator factories). -/
structure Factory where
  res : FactoryRes
  params : Option (List Param)
deriving DecidableEq, Repr

/-- `_takes_container(factory)`: inspect the signature; on introspection
failure or zero parameters, `false`; otherwise decide from the *first*
parameter only (name `svcs_container`, or a container annotation).
Parameters beyond the first are never looked at and never rejected. -/
def _takes_container (factory : Factory) : Bool :=
  match factory.params with
  | none => false
  | some [] => false
  | some (p :: _) => p.name == "svcs_container" || p.annotIsContainer

/-- A registered ping callable: whether `inspect.iscoroutinefunction`
holds of it, and an identity. -/
structure PingSpec where
  isCoroutineFunction : Bool
  id : Nat
deriving DecidableEq, Repr

/-- An `on_registry_close` callback: whether it is async (a coroutine
function or awaitable), whether calling it raises, and an identity. -/
structure Hook where
  isAsync : Bool
  fails : Bool
  id : Nat
deriving DecidableEq, Repr

/-- The exceptions the engine can let escape to the caller. -/
inductive Exc where
  | serviceNotFound (svc_type : Nat)
  | typeError
  | userError (e : Nat)
deriving DecidableEq, Repr

/-- Observable events: factory invocations, successful cleanups, logged
cleanup failures, skipped-async warnings, and registry shutdown hooks. -/
inductive Event where
  | factoryCall (svc_type : Nat)
  | cleanup (id : Nat)
  | cleanupFailed (name : Nat)
  | skippedAsync (name : Nat)
  | hookRan (id : Nat)
  | hookFailed (name : Nat)
deriving DecidableEq, Repr

/-- Lookup in a Python `dict` modelled as an association list. -/
def dictGet {α : Type} (m : List (Nat × α)) (k : Nat) : Option α :=
  match m with
  | [] => none
  | (k', v) :: rest => if k' = k then some v else dictGet rest k

/-- Insertion into a Python `dict`: replacing an existing key keeps its
position; a new key is appended at the end (insertion order). -/
def dictInsert {α : Type} (m : List (Nat × α)) (k : Nat) (v : α) :
    List (Nat × α) :=
  match m with
  | [] => [(k, v)]
  | (k', v') :: rest =>
      if k' = k then (k, v) :: rest else (k', v') :: dictInsert rest k v

/-- `RegisteredService`: a recipe for creating a service.  `name`
(`_full_name(svc_type)`) is modelled as the type key itself. -/
structure RegisteredService where
  svc_type : Nat
  factory : Factory
  takes_container : Bool
  enter : Bool
  ping : Option PingSpec
deriving DecidableEq, Repr

/-- `RegisteredService.name`: the full name of `svc_type`. -/
def RegisteredService.name (rs : RegisteredService) : Nat :=
  rs.svc_type

/-- `Registry`: the map from service type to `RegisteredService`, plus
the ordered `on_registry_close` hooks as `(name, callback)` pairs. -/
structure Registry where
  _services : List (Nat × RegisteredService)
  _on_close : List (Nat × Hook)
deriving DecidableEq, Repr

/-- `Registry._register_factory`: store the `RegisteredService` (with
`takes_container` computed by `_takes_container`), replacing any previous
entry for `svc_type`, and append the `on_registry_close` hook (if given)
to `_on_close`.  Generator wrapping is pre-applied in `Factory` (see
there).  Never raises. -/
def Registry._register_factory (r : Registry) (svc_type : Nat)
    (factory : Factory) (enter : Bool) (ping : Option PingSpec)
    (on_registry_close : Option Hook) : Registry :=
  let rs : RegisteredService :=
    ⟨svc_type, factory, _takes_container factory, enter, ping⟩
  { _services := dictInsert r._services svc_type rs
    _on_close :=
      match on_registry_close with
      | some h => r._on_close ++ [(rs.name, h)]
      | none => r._on_close }

/-- `Registry.register_factory`: public wrapper of `_register_factory`
(the source additionally logs the registration, which changes no
state). -/
def Registry.register_factory (r : Registry) (svc_type : Nat)
    (factory : Factory) (enter : Bool) (ping : Option PingSpec)
    (on_registry_close : Option Hook) : Registry :=
  r._register_factory svc_type factory enter ping on_registry_close

/-- `Registry.get_registered_service_for`: exact-match lookup, raising
`ServiceNotFoundError(svc_type)` when absent. -/
def Registry.get_registered_service_for (r : Registry) (svc_type : Nat) :
    Except Exc RegisteredService :=
  match dictGet r._services svc_type with
  | some rs => .ok rs
  | none => .error (.serviceNotFound svc_type)

/-- One step of `Registry.close`'s loop: an async hook is skipped with a
warning; a failing synchronous hook is caught and logged; otherwise the
hook runs. -/
def hookSyncEvent (name : Nat) (h : Hook) : Event :=
  if h.isAsync then .skippedAsync name
  else if h.fails then .hookFailed name
  else .hookRan h.id

/-- One step of `Registry.aclose`'s loop: both synchronous and
asynchronous hooks are invoked/awaited; failures are caught and
logged. -/
def hookAsyncEvent (name : Nat) (h : Hook) : Event :=
  if h.fails then .hookFailed name else .hookRan h.id

/-- `Registry.close`: drain `_on_close` in reverse registration order
(skipping async hooks with a warning, catching and logging failures),
then clear `_services` and `_on_close` unconditionally.  Total: never
raises. -/
def Registry.close (r : Registry) : Registry × List Event :=
  (⟨[], []⟩, r._on_close.reverse.map (fun p => hookSyncEvent p.1 p.2))

/-- `Registry.aclose`: drain `_on_close` in reverse registration order,
awaiting async hooks too, catching and logging failures, then clear both
collections unconditionally. -/
def Registry.aclose (r : Registry) : Registry × List Event :=
  (⟨[], []⟩, r._on_close.reverse.map (fun p => hookAsyncEvent p.1 p.2))

/-- `Container`: per-scope cache (`_instantiated`, keyed by the
requested type) and release stack (`_on_close`, `(name, cm)` pairs of
entered context-manager objects), plus the shared registry and the lazily
created local registry. -/
structure Container where
  registry : Registry
  _lazy_local_registry : Option Registry
  _instantiated : List (Nat × Obj)
  _on_close : List (Nat × Obj)
deriving DecidableEq, Repr

/-- The registration-resolution half of `Container._lookup`: consult the
local registry first (its `ServiceNotFoundError` is suppressed), fall
back to the shared registry (whose `ServiceNotFoundError` propagates). -/
def Container.resolveRS (c : Container) (svc_type : Nat) :
    Except Exc RegisteredService :=
  let rsLocal : Option RegisteredService :=
    match c._lazy_local_registry with
    | some lr =>
        match lr.get_registered_service_for svc_type with
        | .ok rs => some rs
        | .error _ => none
    | none => none
  match rsLocal with
  | some rs => .ok rs
  | none => c.registry.get_registered_service_for svc_type

/-- `Container._lookup`: cache first (where only the first two components
of the returned tuple are meaningful — the source returns `("", False)`
there, modelled as `(0, false)`); otherwise resolve the registration and
invoke its factory (which emits a `factoryCall` event and may raise). -/
def Container._lookup (c : Container) (svc_type : Nat) :
    Except Exc (Bool × Obj × Nat × Bool) × List Event :=
  match dictGet c._instantiated svc_type with
  | some svc => (.ok (true, svc, 0, false), [])
  | none =>
    match c.resolveRS svc_type with
    | .error e => (.error e, [])
    | .ok rs =>
      match rs.factory.res with
      | .raises e => (.error (.userError e), [.factoryCall svc_type])
      | .ok svc =>
          (.ok (false, svc, rs.name, rs.enter), [.factoryCall svc_type])

/-- The body of `Container.get`'s loop for one requested type: a cache
hit is returned as-is; a coroutine or async context manager raises
`TypeError` (before any state mutation); a sync context manager is pushed
onto the release stack and entered when `enter` is set; the resulting
instance is cached under the requested type. -/
def Container.get1 (c : Container) (svc_type : Nat) :
    Except Exc Obj × Container × List Event :=
  match c._lookup svc_type with
  | (.error e, evs) => (.error e, c, evs)
  | (.ok (true, svc, _, _), evs) => (.ok svc, c, evs)
  | (.ok (false, svc, name, enter), evs) =>
    if iscoroutine svc || isAsyncCMObj svc then
      (.error .typeError, c, evs)
    else
      let svc2 := if enter && isSyncCMObj svc then enteredObj svc else svc
      let oc2 := if enter && isSyncCMObj svc then
          c._on_close ++ [(name, svc)]
        else c._on_close
      (.ok svc2,
       ⟨c.registry, c._lazy_local_registry,
        dictInsert c._instantiated svc_type svc2, oc2⟩,
       evs)

/-- `Container.get` over the requested types in order.  The source
returns `rv[0]` when exactly one type was requested and the list
otherwise; the model always returns the list.  An exception propagates
immediately, keeping the mutations made for the earlier types. -/
def Container.get (c : Container) (svc_types : List Nat) :
    Except Exc (List Obj) × Container × List Event :=
  match svc_types with
  | [] => (.ok [], c, [])
  | t :: ts =>
    match c.get1 t with
    | (.error e, c1, evs) => (.error e, c1, evs)
    | (.ok v, c1, evs) =>
      match c1.get ts with
      | (.error e, c2, evs2) => (.error e, c2, evs ++ evs2)
      | (.ok vs, c2, evs2) => (.ok (v :: vs), c2, evs ++ evs2)

/-- The body of `Container.aget`'s loop for one requested type,
mirroring the source's `if`/`elif` chain: an (async or sync) context
manager is pushed and entered when `enter` is set; otherwise an awaitable
is awaited and the awaited result re-checked for the two context-manager
shapes; the resulting instance is cached under the requested type. -/
def Container.aget1 (c : Container) (svc_type : Nat) :
    Except Exc Obj × Container × List Event :=
  match c._lookup svc_type with
  | (.error e, evs) => (.error e, c, evs)
  | (.ok (true, svc, _, _), evs) => (.ok svc, c, evs)
  | (.ok (false, svc, name, enter), evs) =>
    let step : Obj × List (Nat × Obj) :=
      if enter && isAsyncCMObj svc then
        (enteredObj svc, c._on_close ++ [(name, svc)])
      else if enter && isSyncCMObj svc then
        (enteredObj svc, c._on_close ++ [(name, svc)])
      else if isawaitable svc then
        let svcA :=
          match svc with
          | .coro p => awaitObj p
          | .awaitable p => awaitObj p
          | o => o
        if enter && isAsyncCMObj svcA then
          (enteredObj svcA, c._on_close ++ [(name, svcA)])
        else if enter && isSyncCMObj svcA then
          (enteredObj svcA, c._on_close ++ [(name, svcA)])
        else (svcA, c._on_close)
      else (svc, c._on_close)
    (.ok step.1,
     ⟨c.registry, c._lazy_local_registry,
      dictInsert c._instantiated svc_type step.1, step.2⟩,
     evs)

/-- `Container.aget` over the requested types in order (the source
unwraps a singleton result; the model always returns the list). -/
def Container.aget (c : Container) (svc_types : List Nat) :
    Except Exc (List Obj) × Container × List Event :=
  match svc_types with
  | [] => (.ok [], c, [])
  | t :: ts =>
    match c.aget1 t with
    | (.error e, c1, evs) => (.error e, c1, evs)
    | (.ok v, c1, evs) =>
      match c1.aget ts with
      | (.error e, c2, evs2) => (.error e, c2, evs ++ evs2)
      | (.ok vs, c2, evs2) => (.ok (v :: vs), c2, evs ++ evs2)

/-- One step of `Container.close`'s loop: an async context manager is
skipped with a warning; a sync context manager is exited, with a raising
exit caught and logged.  (A non-context-manager entry never occurs on the
stack; its catch-all models the caught attribute failure.) -/
def exitSyncEvent (name : Nat) (o : Obj) : Event :=
  match o with
  | .asyncCM _ => .skippedAsync name
  | .syncCM s => if s.exitFails then .cleanupFailed name else .cleanup s.id
  | _ => .cleanupFailed name

/-- One step of `Container.aclose`'s loop: sync context managers are
exited, all others awaited-exited; failures are caught and logged. -/
def exitAnyEvent (name : Nat) (o : Obj) : Event :=
  match o with
  | .syncCM s => if s.exitFails then .cleanupFailed name else .cleanup s.id
  | .asyncCM s => if s.exitFails then .cleanupFailed name else .cleanup s.id
  | _ => .cleanupFailed name

/-- `Container.close`: drain the release stack in reverse acquisition
order (skipping async entries with a warning, catching and logging
failing exits), close the local registry if one was created, then clear
`_on_close` and `_instantiated` unconditionally.  Total: never raises. -/
def Container.close (c : Container) : Container × List Event :=
  let stackEvs := c._on_close.reverse.map (fun p => exitSyncEvent p.1 p.2)
  let lr : Option Registry × List Event :=
    match c._lazy_local_registry with
    | some r => ((r.close).1, (r.close).2)
    | none => (none, [])
  (⟨c.registry, lr.1, [], []⟩, stackEvs ++ lr.2)

/-- `Container.aclose`: drain the release stack in reverse acquisition
order, exiting both sync and async entries, catching and logging failing
exits, aclose the local registry if one was created, then clear both
collections unconditionally. -/
def Container.aclose (c : Container) : Container × List Event :=
  let stackEvs := c._on_close.reverse.map (fun p => exitAnyEvent p.1 p.2)
  let lr : Option Registry × List Event :=
    match c._lazy_local_registry with
    | some r => ((r.aclose).1, (r.aclose).2)
    | none => (none, [])
  (⟨c.registry, lr.1, [], []⟩, stackEvs ++ lr.2)

/-- `Container.register_local_factory`: create the private local
registry on first use, then register into it exactly as
`Registry.register_factory` would. -/
def Container.register_local_factory (c : Container) (svc_type : Nat)
    (factory : Factory) (enter : Bool) (ping : Option PingSpec)
    (on_registry_close : Option Hook) : Container :=
  let lr :=
    match c._lazy_local_registry with
    | some r => r
    | none => (⟨[], []⟩ : Registry)
  ⟨c.registry,
   some (lr.register_factory svc_type factory enter ping on_registry_close),
   c._instantiated, c._on_close⟩

/-- `ServicePing`, as constructed by `Container.get_pings`: the
registration's name, `is_async := iscoroutinefunction(rs.ping)`, the
service type, the ping callable, and the owning container. -/
structure ServicePing where
  name : Nat
  is_async : Bool
  _svc_type : Nat
  _ping : PingSpec
  _container : Container
deriving Repr

/-- `Container.get_pings`: one `ServicePing` per entry of the *shared*
registry's services map whose `ping` field is set (the local registry is
not consulted); no factory is invoked and no container state touched. -/
def Container.get_pings (c : Container) : List ServicePing :=
  c.registry._services.filterMap (fun p =>
    match p.2.ping with
    | some pg =>
        some ⟨p.2.name, pg.isCoroutineFunction, p.2.svc_type, pg, c⟩
    | none => none)

/-- `ServicePing.ping`: acquire the service through `Container.get` and
call the ping callable on it (the ping callable's own behaviour is not
modelled further; acquisition failures propagate). -/
def ServicePing.ping (sp : ServicePing) :
    Except Exc Unit × Container × List Event :=
  match sp._container.get1 sp._svc_type with
  | (.ok _, c, evs) => (.ok (), c, evs)
  | (.error e, c, evs) => (.error e, c, evs)

/-- `ServicePing.aping`: acquire the service through `Container.aget`
and call (awaiting if `is_async`) the ping callable on it. -/
def ServicePing.aping (sp : ServicePing) :
    Except Exc Unit × Container × List Event :=
  match sp._container.aget1 sp._svc_type with
  | (.ok _, c, evs) => (.ok (), c, evs)
  | (.error e, c, evs) => (.error e, c, evs)

theorem dictGet_insert_self {α : Type} (m : List (Nat × α)) (k : Nat)
    (v : α) : dictGet (dictInsert m k v) k = some v := by
  induction m with
  | nil => simp [dictInsert, dictGet]
  | cons hd tl ih =>
    obtain ⟨k', v'⟩ := hd
    by_cases h : k' = k
    · simp [dictInsert, dictGet, h]
    · simp [dictInsert, dictGet, h, ih]

theorem dictGet_insert_ne {α : Type} (m : List (Nat × α)) (k k' : Nat)
    (v : α) (h : k' ≠ k) :
    dictGet (dictInsert m k v) k' = dictGet m k' := by
  induction m with
  | nil => simp [dictInsert, dictGet, Ne.symm h]
  | cons hd tl ih =>
    obtain ⟨k'', v''⟩ := hd
    by_cases hk : k'' = k
    · subst hk
      simp [dictInsert, dictGet, Ne.symm h]
    · simp [dictInsert, dictGet, hk, ih]

/-- A cache hit: `get` returns the cached object, mutates nothing, and
invokes no factory. -/
theorem Container.get1_cached (c : Container) (t : Nat) (v : Obj)
    (h : dictGet c._instantiated t = some v) :
    c.get1 t = (.ok v, c, []) := by
  simp [Container.get1, Container._lookup, h]

/-- A cache hit: `aget` returns the cached object, mutates nothing, and
invokes no factory. -/
theorem Container.aget1_cached (c : Container) (t : Nat) (v : Obj)
    (h : dictGet c._instantiated t = some v) :
    c.aget1 t = (.ok v, c, []) := by
  simp [Container.aget1, Container._lookup, h]

/-- Inversion of a successful fresh `get`: the returned object was
cached under the requested type, the factory was invoked exactly once,
and the registries are untouched. -/
theorem Container.get1_fresh_inv (c : Container) (t : Nat) (v : Obj)
    (c1 : Container) (evs : List Event)
    (hcache : dictGet c._instantiated t = none)
    (h : c.get1 t = (.ok v, c1, evs)) :
    dictGet c1._instantiated t = some v ∧ evs = [.factoryCall t] ∧
    c1.registry = c.registry ∧
    c1._lazy_local_registry = c._lazy_local_registry := by
  rcases hr : c.resolveRS t with e | rs
  · simp [Container.get1, Container._lookup, hcache, hr] at h
  · rcases hf : rs.factory.res with o | e
    · simp only [Container.get1, Container._lookup, hcache, hr, hf] at h
      split at h
      · simp at h
      · simp only [Prod.mk.injEq, Except.ok.injEq] at h
        obtain ⟨hv, hc1, hevs⟩ := h
        subst hv
        refine ⟨?_, hevs.symm, ?_, ?_⟩
        · rw [← hc1]
          exact dictGet_insert_self ..
        · rw [← hc1]
        · rw [← hc1]
    · simp [Container.get1, Container._lookup, hcache, hr, hf] at h

/-- Inversion of a successful fresh `aget`: the returned object was
cached under the requested type, the factory was invoked exactly once,
and the registries are untouched. -/
theorem Container.aget1_fresh_inv (c : Container) (t : Nat) (v : Obj)
    (c1 : Container) (evs : List Event)
    (hcache : dictGet c._instantiated t = none)
    (h : c.aget1 t = (.ok v, c1, evs)) :
    dictGet c1._instantiated t = some v ∧ evs = [.factoryCall t] ∧
    c1.registry = c.registry ∧
    c1._lazy_local_registry = c._lazy_local_registry := by
  rcases hr : c.resolveRS t with e | rs
  · simp [Container.aget1, Container._lookup, hcache, hr] at h
  · rcases hf : rs.factory.res with o | e
    · simp only [Container.aget1, Container._lookup, hcache, hr, hf] at h
      simp only [Prod.mk.injEq, Except.ok.injEq] at h
      obtain ⟨hv, hc1, hevs⟩ := h
      subst hv
      refine ⟨?_, hevs.symm, ?_, ?_⟩
      · rw [← hc1]
        exact dictGet_insert_self ..
      · rw [← hc1]
      · rw [← hc1]
    · simp [Container.aget1, Container._lookup, hcache, hr, hf] at h

/-- C1.  For every container and every requested type with a reachable
registration, a service is constructed at most once per container: a
first successful `get`/`aget` of a not-yet-cached type invokes the
factory exactly once and caches the produced instance under the requested
type, and every subsequent `get`/`aget` on the resulting container
returns the reference-identical cached instance, with no state change and
no further factory invocation. -/
theorem C1_cache_identity (c : Container) (t : Nat) (v : Obj)
    (c1 : Container) (evs : List Event)
    (hcache : dictGet c._instantiated t = none)
    (h : c.get1 t = (.ok v, c1, evs) ∨ c.aget1 t = (.ok v, c1, evs)) :
    evs = [.factoryCall t] ∧
    dictGet c1._instantiated t = some v ∧
    c1.get1 t = (.ok v, c1, []) ∧
    c1.aget1 t = (.ok v, c1, []) := by
  have key : dictGet c1._instantiated t = some v ∧ evs = [.factoryCall t] := by
    rcases h with h | h
    · have := Container.get1_fresh_inv c t v c1 evs hcache h
      exact ⟨this.1, this.2.1⟩
    · have := Container.aget1_fresh_inv c t v c1 evs hcache h
      exact ⟨this.1, this.2.1⟩
  exact ⟨key.2, key.1, Container.get1_cached c1 t v key.1,
    Container.aget1_cached c1 t v key.1⟩

/-- A concrete shared registry with a plain-value factory for type `1`,
used by the C1 witness. -/
def regC1 : Registry :=
  ⟨[(1, ⟨1, ⟨.ok (.val 7), some []⟩, false, true, none⟩)], []⟩

/-- The C1 witness container before its first resolution. -/
def conC1 : Container := ⟨regC1, none, [], []⟩

/-- The C1 witness container after resolving type `1`. -/
def conC1' : Container := ⟨regC1, none, [(1, .val 7)], []⟩

/-- Witness for C1 at a concrete registry, container, and service type. -/
theorem C1_cache_identity_witness :
    (dictGet conC1._instantiated 1 = none ∧
     (conC1.get1 1 = (.ok (.val 7), conC1', [.factoryCall 1]) ∨
      conC1.aget1 1 = (.ok (.val 7), conC1', [.factoryCall 1]))) ∧
    ([Event.factoryCall 1] = [Event.factoryCall 1] ∧
     dictGet conC1'._instantiated 1 = some (.val 7) ∧
     conC1'.get1 1 = (.ok (.val 7), conC1', []) ∧
     conC1'.aget1 1 = (.ok (.val 7), conC1', [])) :=
  ⟨⟨rfl, Or.inl rfl⟩,
   C1_cache_identity conC1 1 (.val 7) conC1' [.factoryCall 1] rfl
     (Or.inl rfl)⟩

/-- C3.  For a type that is neither cached nor registered in the local
registry (when one exists) nor in the shared registry, `get` and `aget`
fail with `ServiceNotFoundError` carrying the requested type, unrecovered
(the error is the call's result) and with no state change and no factory
invocation.  Resolution consults the local registry first and falls back
to the shared one, so failing requires absence from both. -/
theorem C3_not_found (c : Container) (t : Nat)
    (hcache : dictGet c._instantiated t = none)
    (hlocal : ∀ lr, c._lazy_local_registry = some lr →
      dictGet lr._services t = none)
    (hshared : dictGet c.registry._services t = none) :
    c.get1 t = (.error (.serviceNotFound t), c, []) ∧
    c.aget1 t = (.error (.serviceNotFound t), c, []) := by
  have hres : c.resolveRS t = .error (.serviceNotFound t) := by
    unfold Container.resolveRS
    rcases hl : c._lazy_local_registry with _ | lr
    · simp [Registry.get_registered_service_for, hshared]
    · simp [Registry.get_registered_service_for, hlocal lr hl, hshared]
  constructor
  · simp [Container.get1, Container._lookup, hcache, hres]
  · simp [Container.aget1, Container._lookup, hcache, hres]

/-- The C3 witness shared registry: only type `2` is registered. -/
def regC3 : Registry :=
  ⟨[(2, ⟨2, ⟨.ok (.val 9), some []⟩, false, true, none⟩)], []⟩

/-- The C3 witness local registry: only type `3` is registered. -/
def locC3 : Registry :=
  ⟨[(3, ⟨3, ⟨.ok (.val 4), some []⟩, false, true, none⟩)], []⟩

/-- The C3 witness container: local registry present, type `1`
reachable nowhere. -/
def conC3 : Container := ⟨regC3, some locC3, [], []⟩

/-- Witness for C3 at a concrete container and unregistered type. -/
theorem C3_not_found_witness :
    (dictGet conC3._instantiated 1 = none ∧
     (∀ lr, conC3._lazy_local_registry = some lr →
        dictGet lr._services 1 = none) ∧
     dictGet conC3.registry._services 1 = none) ∧
    (conC3.get1 1 = (.error (.serviceNotFound 1), conC3, []) ∧
     conC3.aget1 1 = (.error (.serviceNotFound 1), conC3, [])) := by
  have hlocal : ∀ lr, conC3._lazy_local_registry = some lr →
      dictGet lr._services 1 = none := by
    intro lr hlr
    injection hlr with hh
    rw [← hh]
    rfl
  exact ⟨⟨rfl, hlocal, rfl⟩, C3_not_found conC3 1 rfl hlocal rfl⟩

/-- Appending one more requested type whose resolution fails: the whole
`get` call fails with that error, and the container keeps the state
accumulated by the earlier, successful resolutions. -/
theorem Container.get_snoc_error (c : Container) (ts : List Nat) (t : Nat)
    (vs : List Obj) (c1 c2 : Container) (evs evs2 : List Event) (e : Exc)
    (hpre : c.get ts = (.ok vs, c1, evs))
    (hlast : c1.get1 t = (.error e, c2, evs2)) :
    c.get (ts ++ [t]) = (.error e, c2, evs ++ evs2) := by
  induction ts generalizing c vs evs with
  | nil =>
    simp only [Container.get, Prod.mk.injEq, Except.ok.injEq] at hpre
    obtain ⟨h1, h2, h3⟩ := hpre
    subst h2; subst h3
    simp only [List.nil_append, Container.get, hlast]
  | cons t' ts ih =>
    simp only [Container.get] at hpre
    rcases h1 : c.get1 t' with ⟨res1, c', evs'⟩
    rw [h1] at hpre
    rcases res1 with e' | v
    · simp at hpre
    · dsimp only at hpre
      rcases h2 : c'.get ts with ⟨res2, c2', evs2'⟩
      rw [h2] at hpre
      rcases res2 with e' | vs'
      · simp at hpre
      · simp only [Prod.mk.injEq, Except.ok.injEq] at hpre
        obtain ⟨hv, hc, hevs⟩ := hpre
        subst hc; subst hevs
        simp only [List.cons_append, Container.get, h1, List.append_eq]
        rw [ih c' vs' evs2' h2]
        simp [List.append_assoc]

/-- The `aget` analogue of `Container.get_snoc_error`. -/
theorem Container.aget_snoc_error (c : Container) (ts : List Nat) (t : Nat)
    (vs : List Obj) (c1 c2 : Container) (evs evs2 : List Event) (e : Exc)
    (hpre : c.aget ts = (.ok vs, c1, evs))
    (hlast : c1.aget1 t = (.error e, c2, evs2)) :
    c.aget (ts ++ [t]) = (.error e, c2, evs ++ evs2) := by
  induction ts generalizing c vs evs with
  | nil =>
    simp only [Container.aget, Prod.mk.injEq, Except.ok.injEq] at hpre
    obtain ⟨h1, h2, h3⟩ := hpre
    subst h2; subst h3
    simp only [List.nil_append, Container.aget, hlast]
  | cons t' ts ih =>
    simp only [Container.aget] at hpre
    rcases h1 : c.aget1 t' with ⟨res1, c', evs'⟩
    rw [h1] at hpre
    rcases res1 with e' | v
    · simp at hpre
    · dsimp only at hpre
      rcases h2 : c'.aget ts with ⟨res2, c2', evs2'⟩
      rw [h2] at hpre
      rcases res2 with e' | vs'
      · simp at hpre
      · simp only [Prod.mk.injEq, Except.ok.injEq] at hpre
        obtain ⟨hv, hc, hevs⟩ := hpre
        subst hc; subst hevs
        simp only [List.cons_append, Container.aget, h1, List.append_eq]
        rw [ih c' vs' evs2' h2]
        simp [List.append_assoc]

/-- C10.  If the factory of a not-yet-cached type raises, `get` and
`aget` propagate that exception and leave the container's state for the
type unchanged — nothing cached, nothing pushed on the release stack (the
returned container is the input container itself); in a multi-type call
the types resolved earlier keep their cache entries and scheduled
cleanups (the accumulated container `c1` is what the failing call
returns). -/
theorem C10_factory_exception (c c1 : Container) (ts : List Nat)
    (vs : List Obj) (evs : List Event) (t : Nat)
    (rs : RegisteredService) (e : Nat)
    (hpre : c.get ts = (.ok vs, c1, evs))
    (hcache : dictGet c1._instantiated t = none)
    (hrs : c1.resolveRS t = .ok rs)
    (hres : rs.factory.res = .raises e) :
    c1.get1 t = (.error (.userError e), c1, [.factoryCall t]) ∧
    c1.aget1 t = (.error (.userError e), c1, [.factoryCall t]) ∧
    c.get (ts ++ [t]) = (.error (.userError e), c1,
      evs ++ [.factoryCall t]) := by
  have hg : c1.get1 t = (.error (.userError e), c1, [.factoryCall t]) := by
    simp [Container.get1, Container._lookup, hcache, hrs, hres]
  have ha : c1.aget1 t = (.error (.userError e), c1, [.factoryCall t]) := by
    simp [Container.aget1, Container._lookup, hcache, hrs, hres]
  exact ⟨hg, ha, Container.get_snoc_error c ts t vs c1 c1 evs
    [.factoryCall t] (.userError e) hpre hg⟩

/-- The C10 witness registry: a working factory for type `1` and a
raising factory for type `2`. -/
def regC10 : Registry :=
  ⟨[(1, ⟨1, ⟨.ok (.val 7), some []⟩, false, true, none⟩),
    (2, ⟨2, ⟨.raises 5, some []⟩, false, true, none⟩)], []⟩

/-- The C10 witness container before any resolution. -/
def conC10 : Container := ⟨regC10, none, [], []⟩

/-- The C10 witness container after successfully resolving type `1`. -/
def conC10' : Container := ⟨regC10, none, [(1, .val 7)], []⟩

/-- Witness for C10: type `1` resolves, then the factory for type `2`
raises; the earlier cache entry survives. -/
theorem C10_factory_exception_witness :
    (conC10.get [1] = (.ok [.val 7], conC10', [.factoryCall 1]) ∧
     dictGet conC10'._instantiated 2 = none ∧
     conC10'.resolveRS 2 = .ok ⟨2, ⟨.raises 5, some []⟩, false, true, none⟩ ∧
     (Factory.mk (.raises 5) (some [])).res = .raises 5) ∧
    (conC10'.get1 2 = (.error (.userError 5), conC10', [.factoryCall 2]) ∧
     conC10'.aget1 2 = (.error (.userError 5), conC10', [.factoryCall 2]) ∧
     conC10.get ([1] ++ [2]) = (.error (.userError 5), conC10',
       [.factoryCall 1] ++ [.factoryCall 2])) :=
  ⟨⟨rfl, rfl, rfl, rfl⟩,
   C10_factory_exception conC10 conC10' [1] [.val 7] [.factoryCall 1] 2
     ⟨2, ⟨.raises 5, some []⟩, false, true, none⟩ 5 rfl rfl rfl rfl⟩

/-- A fresh `get` of a type registered with an auto-entered synchronous
scoped-resource factory: the resource is pushed at the *end* of the
release stack, its entered value is cached and returned, and the factory
runs once. -/
theorem Container.get1_scoped (c : Container) (t : Nat) (cm : CMSpec)
    (rs : RegisteredService)
    (hcache : dictGet c._instantiated t = none)
    (hrs : c.resolveRS t = .ok rs)
    (hfac : rs.factory.res = .ok (.syncCM cm))
    (henter : rs.enter = true) :
    c.get1 t = (.ok (.val cm.enterVal),
      ⟨c.registry, c._lazy_local_registry,
       dictInsert c._instantiated t (.val cm.enterVal),
       c._on_close ++ [(rs.name, .syncCM cm)]⟩,
      [.factoryCall t]) := by
  simp [Container.get1, Container._lookup, hcache, hrs, hfac, henter,
    iscoroutine, isAsyncCMObj, isSyncCMObj, enteredObj]

/-- C2.  Resources are released in strict reverse order of acquisition:
resolving three auto-entered scoped-resource services in the order
`A, B, C` on a fresh container and then closing it (with `close` or
`aclose`) runs their cleanups in the order `C, B, A`. -/
theorem C2_lifo_release (r : Registry) (tA tB tC : Nat) (a b c : CMSpec)
    (rsA rsB rsC : RegisteredService)
    (hAB : tA ≠ tB) (hAC : tA ≠ tC) (hBC : tB ≠ tC)
    (hA : dictGet r._services tA = some rsA)
    (hB : dictGet r._services tB = some rsB)
    (hC : dictGet r._services tC = some rsC)
    (hfA : rsA.factory.res = .ok (.syncCM a)) (heA : rsA.enter = true)
    (hfB : rsB.factory.res = .ok (.syncCM b)) (heB : rsB.enter = true)
    (hfC : rsC.factory.res = .ok (.syncCM c)) (heC : rsC.enter = true)
    (hxA : a.exitFails = false) (hxB : b.exitFails = false)
    (hxC : c.exitFails = false) :
    ∃ vs c3 evs,
      (Container.mk r none [] []).get [tA, tB, tC] = (.ok vs, c3, evs) ∧
      (c3.close).2 = [.cleanup c.id, .cleanup b.id, .cleanup a.id] ∧
      (c3.aclose).2 = [.cleanup c.id, .cleanup b.id, .cleanup a.id] := by
  have hloc : ∀ (i : List (Nat × Obj)) (o : List (Nat × Obj)) (t : Nat),
      (Container.mk r none i o).resolveRS t =
        r.get_registered_service_for t := by
    intro i o t
    simp [Container.resolveRS]
  have hgA : r.get_registered_service_for tA = .ok rsA := by
    simp [Registry.get_registered_service_for, hA]
  have hgB : r.get_registered_service_for tB = .ok rsB := by
    simp [Registry.get_registered_service_for, hB]
  have hgC : r.get_registered_service_for tC = .ok rsC := by
    simp [Registry.get_registered_service_for, hC]
  have s1 := Container.get1_scoped ⟨r, none, [], []⟩ tA a rsA rfl
    (by rw [hloc, hgA]) hfA heA
  have cbne : dictGet (dictInsert ([] : List (Nat × Obj)) tA
      (Obj.val a.enterVal)) tB = none := by
    rw [dictGet_insert_ne _ _ _ _ (Ne.symm hAB)]
    rfl
  have s2 := Container.get1_scoped
    ⟨r, none, dictInsert [] tA (.val a.enterVal),
      [] ++ [(rsA.name, .syncCM a)]⟩ tB b rsB cbne
    (by rw [hloc, hgB]) hfB heB
  have ccne : dictGet (dictInsert (dictInsert ([] : List (Nat × Obj)) tA
      (Obj.val a.enterVal)) tB (Obj.val b.enterVal)) tC = none := by
    rw [dictGet_insert_ne _ _ _ _ (Ne.symm hBC),
      dictGet_insert_ne _ _ _ _ (Ne.symm hAC)]
    rfl
  have s3 := Container.get1_scoped
    ⟨r, none, dictInsert (dictInsert [] tA (.val a.enterVal)) tB
      (.val b.enterVal),
      ([] ++ [(rsA.name, .syncCM a)]) ++ [(rsB.name, .syncCM b)]⟩ tC c rsC
    ccne (by rw [hloc, hgC]) hfC heC
  refine ⟨[.val a.enterVal, .val b.enterVal, .val c.enterVal],
    ⟨r, none,
     dictInsert (dictInsert (dictInsert [] tA (.val a.enterVal)) tB
       (.val b.enterVal)) tC (.val c.enterVal),
     (([] ++ [(rsA.name, .syncCM a)]) ++ [(rsB.name, .syncCM b)]) ++
       [(rsC.name, .syncCM c)]⟩,
    [.factoryCall tA, .factoryCall tB, .factoryCall tC], ?_, ?_, ?_⟩
  · simp only [Container.get, s1, s2, s3]
    rfl
  · simp [Container.close, exitSyncEvent, hxA, hxB, hxC]
  · simp [Container.aclose, exitAnyEvent, hxA, hxB, hxC]

/-- The C2 witness registry: three auto-entered scoped-resource
factories for types `1`, `2`, `3`, with resource ids `11`, `12`, `13`. -/
def regC2 : Registry :=
  ⟨[(1, ⟨1, ⟨.ok (.syncCM ⟨11, 21, false⟩), some []⟩, false, true, none⟩),
    (2, ⟨2, ⟨.ok (.syncCM ⟨12, 22, false⟩), some []⟩, false, true, none⟩),
    (3, ⟨3, ⟨.ok (.syncCM ⟨13, 23, false⟩), some []⟩, false, true, none⟩)],
   []⟩

/-- Witness for C2 at a concrete registry with three scoped services. -/
theorem C2_lifo_release_witness :
    ((1 : Nat) ≠ 2 ∧ (1 : Nat) ≠ 3 ∧ (2 : Nat) ≠ 3 ∧
     dictGet regC2._services 1 =
       some ⟨1, ⟨.ok (.syncCM ⟨11, 21, false⟩), some []⟩, false, true,
         none⟩ ∧
     dictGet regC2._services 2 =
       some ⟨2, ⟨.ok (.syncCM ⟨12, 22, false⟩), some []⟩, false, true,
         none⟩ ∧
     dictGet regC2._services 3 =
       some ⟨3, ⟨.ok (.syncCM ⟨13, 23, false⟩), some []⟩, false, true,
         none⟩) ∧
    (∃ vs c3 evs,
      (Container.mk regC2 none [] []).get [1, 2, 3] = (.ok vs, c3, evs) ∧
      (c3.close).2 = [.cleanup 13, .cleanup 12, .cleanup 11] ∧
      (c3.aclose).2 = [.cleanup 13, .cleanup 12, .cleanup 11]) :=
  ⟨⟨by decide, by decide, by decide, rfl, rfl, rfl⟩,
   C2_lifo_release regC2 1 2 3 ⟨11, 21, false⟩ ⟨12, 22, false⟩
     ⟨13, 23, false⟩
     ⟨1, ⟨.ok (.syncCM ⟨11, 21, false⟩), some []⟩, false, true, none⟩
     ⟨2, ⟨.ok (.syncCM ⟨12, 22, false⟩), some []⟩, false, true, none⟩
     ⟨3, ⟨.ok (.syncCM ⟨13, 23, false⟩), some []⟩, false, true, none⟩
     (by decide) (by decide) (by decide) rfl rfl rfl rfl rfl rfl rfl
     rfl rfl rfl rfl rfl⟩

/-- C5.  Closing a container or registry is total (every individual
cleanup failure is caught and logged, so the model's `close`/`aclose`
return normally for every state), attempts every release-stack entry and
every shutdown hook exactly once regardless of failures (the trace has
exactly one event per entry), and afterwards unconditionally clears the
release stack, the instance cache, and — for a registry — the services
map. -/
theorem C5_close_drains (c : Container) (r : Registry)
    (hlr : c._lazy_local_registry = none) :
    (c.close).1._instantiated = [] ∧ (c.close).1._on_close = [] ∧
    (c.aclose).1._instantiated = [] ∧ (c.aclose).1._on_close = [] ∧
    (r.close).1._services = [] ∧ (r.close).1._on_close = [] ∧
    (r.aclose).1._services = [] ∧ (r.aclose).1._on_close = [] ∧
    (c.close).2.length = c._on_close.length ∧
    (c.aclose).2.length = c._on_close.length ∧
    (r.close).2.length = r._on_close.length ∧
    (r.aclose).2.length = r._on_close.length := by
  refine ⟨rfl, rfl, rfl, rfl, rfl, rfl, rfl, rfl, ?_, ?_, ?_, ?_⟩ <;>
    simp [Container.close, Container.aclose, Registry.close,
      Registry.aclose, hlr]

/-- The C5 witness container: a failing sync cleanup, a succeeding sync
cleanup, and an async cleanup on the release stack, plus a cached
instance. -/
def conC5 : Container :=
  ⟨⟨[], []⟩, none, [(1, .val 5)],
   [(1, .syncCM ⟨31, 41, true⟩), (2, .syncCM ⟨32, 42, false⟩),
    (3, .asyncCM ⟨33, 43, false⟩)]⟩

/-- The C5 witness registry: a failing sync hook and an async hook. -/
def regC5 : Registry :=
  ⟨[], [(1, ⟨false, true, 51⟩), (2, ⟨true, false, 52⟩)]⟩

/-- Witness for C5 at a concrete container and registry whose cleanups
include failing and async entries. -/
theorem C5_close_drains_witness :
    conC5._lazy_local_registry = none ∧
    ((conC5.close).1._instantiated = [] ∧ (conC5.close).1._on_close = [] ∧
     (conC5.aclose).1._instantiated = [] ∧
     (conC5.aclose).1._on_close = [] ∧
     (regC5.close).1._services = [] ∧ (regC5.close).1._on_close = [] ∧
     (regC5.aclose).1._services = [] ∧ (regC5.aclose).1._on_close = [] ∧
     (conC5.close).2.length = conC5._on_close.length ∧
     (conC5.aclose).2.length = conC5._on_close.length ∧
     (regC5.close).2.length = regC5._on_close.length ∧
     (regC5.aclose).2.length = regC5._on_close.length) :=
  ⟨rfl, C5_close_drains conC5 regC5 rfl⟩

/-- C4 amended.  For a not-yet-cached type whose factory's result is a
*coroutine* or an async context manager, the synchronous `get` fails with
`TypeError` ("Use aget() for async factories") leaving the container
unchanged (nothing cached, nothing pushed), and `aget` on the same
registration succeeds.  (A non-coroutine awaitable result is *not*
detected — see the counterexample.) -/
theorem C4_sync_async_boundary (c : Container) (t : Nat)
    (rs : RegisteredService) (o : Obj)
    (hcache : dictGet c._instantiated t = none)
    (hrs : c.resolveRS t = .ok rs)
    (hfac : rs.factory.res = .ok o)
    (hasync : iscoroutine o = true ∨ isAsyncCMObj o = true) :
    c.get1 t = (.error .typeError, c, [.factoryCall t]) ∧
    ∃ v c1, c.aget1 t = (.ok v, c1, [.factoryCall t]) := by
  constructor
  · rcases hasync with h | h <;>
      simp [Container.get1, Container._lookup, hcache, hrs, hfac, h]
  · simp only [Container.aget1, Container._lookup, hcache, hrs, hfac]
    exact ⟨_, _, rfl⟩

/-- The C4 counterexample registry: the factory for type `1` returns a
non-coroutine awaitable (e.g. a future). -/
def regC4 : Registry :=
  ⟨[(1, ⟨1, ⟨.ok (.awaitable (.plain 7)), some []⟩, false, true, none⟩)],
   []⟩

/-- The C4 counterexample container. -/
def conC4 : Container := ⟨regC4, none, [], []⟩

/-- Counterexample to C4 as stated: a factory result that is awaitable —
asynchronous in nature — for which the synchronous `get` does *not* fail
with the wrong-acquisition-mode error: it returns the raw awaitable and
caches it under the requested type (a state mutation), because the source
tests `inspect.iscoroutine`, not `inspect.isawaitable`; `aget` awaits the
same factory's result properly. -/
theorem C4_counterexample :
    isawaitable (Obj.awaitable (.plain 7)) = true ∧
    conC4.get1 1 = (.ok (.awaitable (.plain 7)),
      ⟨regC4, none, [(1, .awaitable (.plain 7))], []⟩, [.factoryCall 1]) ∧
    (conC4.get1 1).1 ≠ .error .typeError ∧
    conC4.aget1 1 = (.ok (.val 7), ⟨regC4, none, [(1, .val 7)], []⟩,
      [.factoryCall 1]) :=
  ⟨rfl, rfl, fun h => Except.noConfusion h, rfl⟩

/-- The C4 witness registry: a coroutine factory for type `2`. -/
def regC4w : Registry :=
  ⟨[(2, ⟨2, ⟨.ok (.coro (.plain 8)), some []⟩, false, true, none⟩)], []⟩

/-- The C4 witness container. -/
def conC4w : Container := ⟨regC4w, none, [], []⟩

/-- Witness for the amended C4 at a concrete coroutine factory. -/
theorem C4_sync_async_boundary_witness :
    (dictGet conC4w._instantiated 2 = none ∧
     conC4w.resolveRS 2 =
       .ok ⟨2, ⟨.ok (.coro (.plain 8)), some []⟩, false, true, none⟩ ∧
     (Factory.mk (.ok (.coro (.plain 8))) (some [])).res =
       .ok (.coro (.plain 8)) ∧
     (iscoroutine (.coro (.plain 8)) = true ∨
      isAsyncCMObj (.coro (.plain 8)) = true)) ∧
    (conC4w.get1 2 = (.error .typeError, conC4w, [.factoryCall 2]) ∧
     ∃ v c1, conC4w.aget1 2 = (.ok v, c1, [.factoryCall 2])) :=
  ⟨⟨rfl, rfl, rfl, Or.inl rfl⟩,
   C4_sync_async_boundary conC4w 2
     ⟨2, ⟨.ok (.coro (.plain 8)), some []⟩, false, true, none⟩
     (.coro (.plain 8)) rfl rfl rfl (Or.inl rfl)⟩

/-- The C6 counterexample factory: two parameters, neither named
`svcs_container` nor container-annotated. -/
def facC6 : Factory :=
  ⟨.ok (.val 5), some [⟨"foo", false⟩, ⟨"bar", false⟩]⟩

/-- Counterexample to C6 as stated: registering a factory whose
signature declares two parameters does *not* fail — there is no
`InvalidFactorySignature` anywhere in the engine; the registration is
stored (with `takes_container = false`, decided from the first parameter
alone). -/
theorem C6_counterexample :
    facC6.params.map List.length = some 2 ∧
    (Registry.mk [] []).register_factory 1 facC6 true none none =
      ⟨[(1, ⟨1, facC6, false, true, none⟩)], []⟩ :=
  ⟨rfl, by decide⟩

/-- C6 amended.  Registering a factory with two or more parameters
succeeds (registration never raises): the services map gets the entry,
and `takes_container` is computed solely from the first parameter's name
and annotation; the extra parameters are ignored. -/
theorem C6_signature_tolerated (r : Registry) (t : Nat)
    (res : FactoryRes) (p : Param) (ps : List Param) (enter : Bool)
    (ping : Option PingSpec) (oc : Option Hook) (hps : ps ≠ []) :
    dictGet ((r.register_factory t ⟨res, some (p :: ps)⟩ enter ping
        oc)._services) t =
      some ⟨t, ⟨res, some (p :: ps)⟩,
        p.name == "svcs_container" || p.annotIsContainer, enter, ping⟩ := by
  simp [Registry.register_factory, Registry._register_factory,
    _takes_container, dictGet_insert_self]

/-- Witness for the amended C6 at a concrete two-parameter factory. -/
theorem C6_signature_tolerated_witness :
    ([Param.mk "bar" false] ≠ ([] : List Param)) ∧
    dictGet (((Registry.mk [] []).register_factory 3
        ⟨.ok (.val 5), some [⟨"foo", false⟩, ⟨"bar", false⟩]⟩ true none
        none)._services) 3 =
      some ⟨3, ⟨.ok (.val 5), some [⟨"foo", false⟩, ⟨"bar", false⟩]⟩,
        (String.mk ['f', 'o', 'o'] == "svcs_container" || false), true,
        none⟩ :=
  ⟨by decide,
   C6_signature_tolerated (Registry.mk [] []) 3 (.ok (.val 5))
     ⟨"foo", false⟩ [⟨"bar", false⟩] true none none (by decide)⟩

/-- The C7 ping callable registered only locally. -/
def pgC7 : PingSpec := ⟨false, 61⟩

/-- The C7 ping callable registered in the shared registry. -/
def pgC7s : PingSpec := ⟨false, 62⟩

/-- The C7 local registry: a ping-bearing registration for type `1`. -/
def locC7 : Registry :=
  ⟨[(1, ⟨1, ⟨.ok (.val 3), some []⟩, false, true, some pgC7⟩)], []⟩

/-- The C7 container whose only ping-bearing registration is local. -/
def conC7 : Container := ⟨⟨[], []⟩, some locC7, [], []⟩

/-- The C7 shared registry: a ping-bearing registration for type `1`
with a different ping callable than the local one. -/
def regC7 : Registry :=
  ⟨[(1, ⟨1, ⟨.ok (.val 4), some []⟩, false, true, some pgC7s⟩)], []⟩

/-- The C7 container with both a shared and a (shadowing) local
ping-bearing registration for type `1`. -/
def conC7b : Container := ⟨regC7, some locC7, [], []⟩

/-- C7 divergence, evaluated at the failing inputs: `get_pings` iterates
only the shared registry's services map, so a container whose only
ping-bearing registration is local yields *no* ping, and a local
registration shadowing a shared one does not affect the returned ping
(the shared registration's ping callable is used) — contradicting the
claim's "exactly as ordinary `get` resolution does" and the test suite's
`test_local_pings_are_retrieved` / `test_local_pings_override_global_pings`. -/
theorem C7_divergence :
    conC7.get_pings = [] ∧
    conC7b.get_pings = [⟨1, false, 1, pgC7s, conC7b⟩] :=
  ⟨rfl, rfl⟩

/-- The C8 ping callable: synchronous. -/
def pgC8 : PingSpec := ⟨false, 71⟩

/-- The C8 registry: type `1` has a *coroutine* factory and a
*synchronous* ping callable. -/
def regC8 : Registry :=
  ⟨[(1, ⟨1, ⟨.ok (.coro (.plain 2)), some []⟩, false, true, some pgC8⟩)],
   []⟩

/-- The C8 container. -/
def conC8 : Container := ⟨regC8, none, [], []⟩

/-- C8 divergence, evaluated at the failing input: for an async
(coroutine) factory with a synchronous ping callable, the produced
`ServicePing` has `is_async = false` (the source computes
`iscoroutinefunction(rs.ping)` only, ignoring the factory), yet the
synchronous `ping()` path fails with `TypeError` while `aping()` succeeds
— i.e. the service *does* need the asynchronous path, contradicting the
claim and the attribute's own documentation. -/
theorem C8_divergence :
    conC8.get_pings.map ServicePing.is_async = [false] ∧
    conC8.get_pings.map (fun sp => (sp.ping).1) = [.error .typeError] ∧
    conC8.get_pings.map (fun sp => (sp.aping).1) = [.ok ()] :=
  ⟨rfl, rfl, rfl⟩

/-- The C9 hooks and factories: type `1` is registered with hook id
`81`, then re-registered with hook id `82`. -/
def regC9 : Registry :=
  ((Registry.mk [] []).register_factory 1 ⟨.ok (.val 1), some []⟩ true
      none (some ⟨false, false, 81⟩)).register_factory 1
    ⟨.ok (.val 2), some []⟩ true none (some ⟨false, false, 82⟩)

/-- Counterexample to C9 as stated: after re-registering type `1`, both
shutdown hooks fire on close, but in *reverse* registration order (the
new hook `82` before the old hook `81`), not in original registration
order. -/
theorem C9_counterexample :
    dictGet regC9._services 1 =
      some ⟨1, ⟨.ok (.val 2), some []⟩, false, true, none⟩ ∧
    (regC9.close).2 = [.hookRan 82, .hookRan 81] ∧
    (regC9.close).2 ≠ [.hookRan 81, .hookRan 82] :=
  ⟨by decide, by decide, by decide⟩

/-- C9 amended.  Re-registering an already-registered type replaces the
services-map entry (lookups resolve the new factory) but keeps the old
registration's shutdown hook: on close both hooks fire, in *reverse*
registration order — the newer hook first — ahead of any hooks that were
registered before them. -/
theorem C9_reregistration_hooks (r : Registry) (t : Nat)
    (f1 f2 : Factory) (h1 h2 : Hook) (e1 e2 : Bool)
    (p1 p2 : Option PingSpec)
    (ha1 : h1.isAsync = false) (hf1 : h1.fails = false)
    (ha2 : h2.isAsync = false) (hf2 : h2.fails = false) :
    dictGet (((r.register_factory t f1 e1 p1 (some h1)).register_factory
        t f2 e2 p2 (some h2))._services) t =
      some ⟨t, f2, _takes_container f2, e2, p2⟩ ∧
    (((r.register_factory t f1 e1 p1 (some h1)).register_factory t f2 e2
        p2 (some h2)).close).2 =
      [.hookRan h2.id, .hookRan h1.id] ++ (r.close).2 := by
  constructor
  · simp [Registry.register_factory, Registry._register_factory,
      dictGet_insert_self]
  · simp [Registry.register_factory, Registry._register_factory,
      Registry.close, hookSyncEvent, ha1, hf1, ha2, hf2]

/-- Witness for the amended C9: a registry with one pre-existing hook,
then registration and re-registration of type `1`. -/
theorem C9_reregistration_hooks_witness :
    ((Hook.mk false false 81).isAsync = false ∧
     (Hook.mk false false 81).fails = false ∧
     (Hook.mk false false 82).isAsync = false ∧
     (Hook.mk false false 82).fails = false) ∧
    (dictGet ((((Registry.mk [] [(9, ⟨false, false, 80⟩)]).register_factory
          1 ⟨.ok (.val 1), some []⟩ true none
          (some ⟨false, false, 81⟩)).register_factory 1
          ⟨.ok (.val 2), some []⟩ true none
          (some ⟨false, false, 82⟩))._services) 1 =
       some ⟨1, ⟨.ok (.val 2), some []⟩,
         _takes_container ⟨.ok (.val 2), some []⟩, true, none⟩ ∧
     ((((Registry.mk [] [(9, ⟨false, false, 80⟩)]).register_factory 1
          ⟨.ok (.val 1), some []⟩ true none
          (some ⟨false, false, 81⟩)).register_factory 1
          ⟨.ok (.val 2), some []⟩ true none
          (some ⟨false, false, 82⟩)).close).2 =
       [.hookRan 82, .hookRan 81] ++
         ((Registry.mk [] [(9, ⟨false, false, 80⟩)]).close).2) :=
  ⟨⟨rfl, rfl, rfl, rfl⟩,
   C9_reregistration_hooks (Registry.mk [] [(9, ⟨false, false, 80⟩)]) 1
     ⟨.ok (.val 1), some []⟩ ⟨.ok (.val 2), some []⟩
     ⟨false, false, 81⟩ ⟨false, false, 82⟩ true true none none
     rfl rfl rfl rfl⟩

end Svcs
